import Mathlib

/-!
Verification of the SISWIT employee daily work-update bot.

Shallow embedding of the workflow core from the repository sources:
`src/bot.py` (message handler, `/allow`), `src/config.py` (roster and
ledger stores), `src/excel_handler.py` (lateness check, monthly leave
count, leave-register deduction), `src/callbacks.py` (approval
callbacks) and `src/commands_admin.py` (late report).

Python dicts are embedded as association lists with set/erase
operations that keep at most one binding per key (matching dict
semantics).  I/O (Telegram transport, file writes, spreadsheet
styling) is abstracted to boolean effect flags on the handler results.
-/

namespace SISWIT

/-- Roster value for one employee id: display name and department
(the `{"name": ..., "dept": ...}` dicts of `config.STAFF_RECORDS`). -/
structure StaffInfo where
  name : String
  dept : String
deriving DecidableEq, Repr

/-- Roster Store: employee id to staff info (`config.STAFF_RECORDS`). -/
abbrev Roster := List (String × StaffInfo)

/-- ASCII alphanumeric test, the `[A-Za-z0-9]` class of
`bot.UPDATE_PATTERN`'s first group. -/
def isAlnumChar (c : Char) : Bool := c.isAlpha || c.isDigit

/-- ASCII whitespace, the `\s` class of Python's `re` on ASCII text
(space, tab, newline, vertical tab, form feed, carriage return). -/
def isSpaceChar (c : Char) : Bool :=
  c = ' ' || c = '\t' || c = '\n' || c = '\x0b' || c = '\x0c' || c = '\r'

/-- Python `str.strip()` on ASCII text: drop leading and trailing
whitespace. -/
def pyStrip (s : String) : String :=
  String.mk (((s.data.dropWhile isSpaceChar).reverse.dropWhile isSpaceChar).reverse)

/-- Python `str.upper()` on ASCII text. -/
def pyUpper (s : String) : String :=
  String.mk (s.data.map Char.toUpper)

/-- First whitespace-delimited token of a string. -/
def firstToken (s : String) : String :=
  String.mk (s.data.takeWhile (fun c => !isSpaceChar c))

/-- Matching of `bot.UPDATE_PATTERN`, the regex
`^([A-Za-z0-9]+)\s+(.+)$` compiled with `re.DOTALL`, against a string:
group 1 is the maximal alphanumeric prefix (backtracking it further
cannot succeed because the next character would still be
alphanumeric), then at least one whitespace character, then a
non-empty remainder which `.` with DOTALL matches entirely.  When the
whole tail after group 1 is whitespace, the greedy `\s+` gives back
exactly one character to `(.+)`. -/
def parseUpdate (s : String) : Option (String × String) :=
  let cs := s.data
  let tok := cs.takeWhile isAlnumChar
  let rest1 := cs.dropWhile isAlnumChar
  let ws := rest1.takeWhile isSpaceChar
  let rest := rest1.dropWhile isSpaceChar
  if tok = [] then none
  else if ws = [] then none
  else if rest = [] then
    if 2 ≤ ws.length then some (String.mk tok, String.mk (ws.drop (ws.length - 1)))
    else none
  else some (String.mk tok, String.mk rest)

/-- Submission record in dict shape, as the consumers in
`src/commands_admin.py` read it (`entry.get("time")`,
`entry.get("work")`, `entry.get("late")`).  The stored time string is
embedded already parsed to an hour/minute pair; `none` models a
missing or unparsable time value. -/
structure SubRecord where
  time : Option (Nat × Nat)
  work : String
  late : Bool
deriving DecidableEq, Repr

/-- One value of the daily log for a (date, employee) key.
`src/bot.py`'s `handle_message` stores the bare Python `True`
(embedded as `mark`); dict-shaped entries (`entry`) are the other form
the report commands know how to read (`isinstance(entry, dict)`). -/
inductive LogEntry where
  | mark : LogEntry
  | entry : SubRecord → LogEntry
deriving DecidableEq, Repr

/-- Inner per-day map of the daily log: employee id to entry. -/
abbrev DayLog := List (String × LogEntry)

/-- Submission Ledger: date string (`YYYY-MM-DD`) to per-day map
(`daily_log.json` / `context.bot_data["daily_log"]`). -/
abbrev DailyLog := List (String × DayLog)

/-- Remove every binding of a key from an association list (Python
`del d[k]` on a dict, which holds at most one binding per key). -/
def eraseKey {β : Type} (m : List (String × β)) (k : String) : List (String × β) :=
  m.filter (fun p => p.1 != k)

/-- Set a key in an association list (Python `d[k] = v`). -/
def setKey {β : Type} (m : List (String × β)) (k : String) (v : β) : List (String × β) :=
  (k, v) :: eraseKey m k

/-- Per-day map of the ledger for a date, empty when the date is
absent (`log.get(date, {})`). -/
def logGetDay (log : DailyLog) (d : String) : DayLog :=
  (log.lookup d).getD []

/-- Replace the per-day map of the ledger for a date. -/
def logSetDay (log : DailyLog) (d : String) (m : DayLog) : DailyLog :=
  setKey log d m

/-- Ledger lookup for a (date, employee) key
(`emp_id in log[date]` / `log[date][emp_id]`). -/
def logLookup (log : DailyLog) (d e : String) : Option LogEntry :=
  (logGetDay log d).lookup e

/-- Record a ledger entry (`log[date][emp_id] = v`, creating the day
map when absent, as `handle_message` does). -/
def logRecord (log : DailyLog) (d e : String) (v : LogEntry) : DailyLog :=
  logSetDay log d (setKey (logGetDay log d) e v)

/-- Clear one ledger entry, from `allow_command` (src/bot.py:575-577)
and `allow_callback` (src/callbacks.py:46-48):
`if date in log and emp in log[date]: del log[date][emp]`; a no-op
when the entry is absent. -/
def clearEntry (log : DailyLog) (d e : String) : DailyLog :=
  if (logLookup log d e).isSome then
    logSetDay log d (eraseKey (logGetDay log d) e)
  else log

/-- Replies `handle_message` can send back to the originating chat. -/
inductive Reply where
  | alreadySubmitted : Reply
  | confirm : Reply
deriving DecidableEq, Repr

/-- Observable outcome of one `handle_message` call: the resulting
ledger, the reply to the chat, and whether each persistence sink was
written and each supervisor notified. -/
structure MsgResult where
  log : DailyLog
  reply : Option Reply
  excelWrite : Bool
  sheetsWrite : Bool
  ownerNotify : Bool
  hrNotify : Bool
deriving DecidableEq, Repr

/-- The silently-ignored outcome: ledger unchanged, no reply, no sink
write, no supervisor message. -/
def MsgResult.silent (log : DailyLog) : MsgResult :=
  ⟨log, none, false, false, false, false⟩

/-- The main message handler `handle_message` of `src/bot.py`
(lines 454-554), restricted to its state and effects: strip the text,
match `UPDATE_PATTERN`, upper-case group 1 (its `.strip()` is the
identity on an alphanumeric token and is omitted), silently return
when the id is not registered, reject a duplicate same-day submission
without any write, and otherwise save to both sinks, notify owner and
HR, and record `True` for (today, emp_id). -/
def handle_message (roster : Roster) (log : DailyLog) (today : String)
    (text : String) : MsgResult :=
  match parseUpdate (pyStrip text) with
  | none => .silent log
  | some (tok, _work) =>
    let empId := pyUpper tok
    match roster.lookup empId with
    | none => .silent log
    | some _ =>
      if (logLookup log today empId).isSome then
        ⟨log, some .alreadySubmitted, false, false, false, false⟩
      else
        ⟨logRecord log today empId .mark, some .confirm, true, true, true, true⟩

/-- Adding a staff record, from `config.save_staff_record`
(src/config.py:132-142): `records[emp_id.upper()] =
{"name": name, "dept": dept.upper()}` (file write abstracted). -/
def save_staff_record (records : Roster) (empId name dept : String) : Roster :=
  setKey records (pyUpper empId) ⟨name, pyUpper dept⟩

/-- Removing a staff record, from `config.remove_staff_record`
(src/config.py:145-158): upper-case the id, return `False` leaving the
store untouched when the id is absent, else delete and return
`True`. -/
def remove_staff_record (records : Roster) (empId : String) : Bool × Roster :=
  let k := pyUpper empId
  if (records.lookup k).isSome then (true, eraseKey records k)
  else (false, records)

/-- The on-time check `_is_on_time` of `src/excel_handler.py`
(lines 32-42): the submission time is compared against the deadline
with `sub_time <= deadline_time`, two datetimes on the same date, so
lexicographically by hour then minute.  A `none` deadline models an
unparsable deadline configuration, for which the `except` branch
returns `True` (fail open). -/
def is_on_time (deadline : Option (Nat × Nat)) (h mi : Nat) : Bool :=
  match deadline with
  | none => true
  | some (dh, dm) => decide (h < dh) || (h == dh && decide (mi ≤ dm))

/-- The lateness test of `late_command` in `src/commands_admin.py`
(line 91): `t.hour > deadline_h or (t.hour == deadline_h and
t.minute > deadline_m)`. -/
def lateCheck (dh dm h mi : Nat) : Bool :=
  decide (dh < h) || (h == dh && decide (dm < mi))

/-- How `late_command` (src/commands_admin.py:83-98) buckets one
ledger entry: a non-dict entry yields time `""` and goes to the
on-time list; a dict entry with a missing or unparsable time also goes
to the on-time list; otherwise the entry is listed late exactly when
`lateCheck` holds. -/
def lateListed (dh dm : Nat) (e : LogEntry) : Bool :=
  match e with
  | .mark => false
  | .entry r =>
    match r.time with
    | none => false
    | some (h, mi) => lateCheck dh dm h mi

/-- Time string recovered from a ledger entry by the reports:
`entry.get("time", "") if isinstance(entry, dict) else ""`. -/
def entryTime (e : LogEntry) : Option (Nat × Nat) :=
  match e with
  | .mark => none
  | .entry r => r.time

/-- Leave record for one (date, employee): approving admin and reason
(`{"approved_by": admin_name, "reason": reason}` in
`src/callbacks.py:187`). -/
structure LeaveRec where
  approved_by : String
  reason : String
deriving DecidableEq, Repr

/-- Calendar date, used as leave-log key; Python keys the leave log by
the `YYYY-MM-DD` rendering of this date, and
`date_str.startswith(month_key)` on such keys is the same as agreeing
on year and month. -/
structure Date where
  y : Nat
  m : Nat
  d : Nat
deriving DecidableEq, Repr

/-- Inner per-day map of the leave log. -/
abbrev DayLeaves := List (String × LeaveRec)

/-- Leave Ledger: date to per-day map (`leave_log.json`). -/
abbrev LeaveLog := List (Date × DayLeaves)

/-- Remove every binding of a date from the leave log. -/
def leaveEraseDay (log : LeaveLog) (d : Date) : LeaveLog :=
  log.filter (fun p => p.1 ≠ d)

/-- Per-day map of the leave log for a date (`log.get(date, {})`). -/
def leaveGetDay (log : LeaveLog) (d : Date) : DayLeaves :=
  match log.find? (fun p => p.1 = d) with
  | none => []
  | some p => p.2

/-- Record a leave entry (`leave_log[log_key][emp_id] = {...}` in
`src/callbacks.py:181-187`, creating the day map when absent). -/
def leaveRecord (log : LeaveLog) (d : Date) (e : String) (r : LeaveRec) : LeaveLog :=
  (d, setKey (leaveGetDay log d) e r) :: leaveEraseDay log d

/-- The monthly leave count `count_monthly_leaves` of
`src/excel_handler.py` (lines 229-241): count the leave-log dates in
the same calendar month as the leave date that contain the employee. -/
def count_monthly_leaves (log : LeaveLog) (emp : String) (ld : Date) : Nat :=
  log.countP (fun p => p.1.y == ld.y && p.1.m == ld.m && (p.2.lookup emp).isSome)

/-- Outcome of one leave approval. -/
structure LeaveApproveResult where
  log : LeaveLog
  count : Nat
  deduction : Option Nat
deriving DecidableEq, Repr

/-- The `leave_approve` branch of `leave_callback`
(src/callbacks.py:171-208) restricted to state and numbers: record the
leave, count the employee's approved leaves of the same month
including this one, and compute the deduction
`(leave_count - 3) * 500` exactly when the count exceeds 3 (shown only
in the admin message and the Leave Register; the group message carries
no deduction). -/
def leave_approve (log : LeaveLog) (emp : String) (ld : Date)
    (reason approver : String) : LeaveApproveResult :=
  let log2 := leaveRecord log ld emp ⟨approver, reason⟩
  let cnt := count_monthly_leaves log2 emp ld
  let ded := if 3 < cnt then some ((cnt - 3) * 500) else none
  ⟨log2, cnt, ded⟩

/-- Gregorian leap-year rule, for the previous-calendar-date
computation of the grace window. -/
def isLeap (y : Nat) : Bool :=
  (y % 4 == 0 && y % 100 != 0) || y % 400 == 0

/-- Number of days of a month. -/
def daysInMonth (y m : Nat) : Nat :=
  if m = 2 then (if isLeap y then 29 else 28)
  else if m = 4 || m = 6 || m = 9 || m = 11 then 30
  else 31

/-- Previous calendar date. -/
def prevDate (dt : Date) : Date :=
  if 1 < dt.d then ⟨dt.y, dt.m, dt.d - 1⟩
  else if 1 < dt.m then ⟨dt.y, dt.m - 1, daysInMonth dt.y (dt.m - 1)⟩
  else ⟨dt.y - 1, 12, 31⟩

/-- Modelled from the spec: the midnight grace window of the
Submission Classifier (spec §4.1).  The bot-entrypoint variant that
implements it is not under `src/` (`src/bot.py`'s `handle_message`
dates every record with the current day); per the spec, an arrival
whose local hour is before 01:00 is attributed to the previous
calendar date and unconditionally flagged late, while the normal path
keeps the current date and is late exactly when the arrival strictly
exceeds the deadline, hour first then minute, with an unparsable
deadline treated as not late. -/
def classifySubmission (deadline : Option (Nat × Nat)) (today : Date)
    (h mi : Nat) : Date × Bool :=
  if h < 1 then (prevDate today, true)
  else
    (today,
      match deadline with
      | none => false
      | some (dh, dm) => decide (dh < h) || (h == dh && decide (dm < mi)))

/-- Allow-Usage Counter: (date, employee) to how many re-submission
requests were made that day. -/
abbrev AllowCounter := List ((String × String) × Nat)

/-- Counter value for a (date, employee) key, zero when absent. -/
def counterGet (cnt : AllowCounter) (d e : String) : Nat :=
  match cnt.find? (fun p => p.1 = (d, e)) with
  | none => 0
  | some p => p.2

/-- What one re-submission request sends out: a normal Approve/Reject
approval prompt to the admins, or a suspicious-activity alert to all
admins. -/
structure AllowOutcome where
  prompt : Bool
  alert : Bool
deriving DecidableEq, Repr

/-- The configured cap of the Allow-Usage Counter (spec §3: cap 1). -/
def allowCap : Nat := 1

/-- Modelled from the spec: the employee-facing re-submission request
flow guarded by the Allow-Usage Counter (spec §4.3).  The
request-creating variant is not under `src/` (`src/bot.py`'s
`/allow` is a direct admin clear and `src/callbacks.py` only resolves
prompts); per the spec, the first request per (date, employee) is
forwarded to all admins with Approve/Reject controls and bumps the
counter, and every request at or past the cap is denied outright with
a suspicious-activity alert to all admins, never reaching the normal
approval path. -/
def allowRequest (cnt : AllowCounter) (d e : String) : AllowOutcome × AllowCounter :=
  let c := counterGet cnt d e
  if allowCap ≤ c then (⟨false, true⟩, cnt)
  else (⟨true, false⟩, ((d, e), c + 1) :: cnt.filter (fun p => p.1 ≠ (d, e)))

/-- The default roster of `config.load_staff_records`
(src/config.py:117-129), restricted to two entries used as concrete
test data. -/
def demoRoster : Roster :=
  [("DEV01", ⟨"Sunny", "DEVELOPER"⟩), ("MKT01", ⟨"Bipul", "MARKETING"⟩)]

/-- The `isinstance(entry, dict)` test the report commands apply to a
ledger entry before reading its fields. -/
def LogEntry.isDict : LogEntry → Bool
  | .mark => false
  | .entry _ => true

/-- Concrete leave log with three approved leaves of `DEV01` in
March 2026, used as test data. -/
def demoLeaveLog : LeaveLog :=
  [(⟨2026, 3, 2⟩, [("DEV01", ⟨"Boss", "a"⟩)]),
   (⟨2026, 3, 3⟩, [("DEV01", ⟨"Boss", "b"⟩)]),
   (⟨2026, 3, 4⟩, [("DEV01", ⟨"Boss", "c"⟩)])]

/-! Association-list lemmas for the dict embedding. -/

theorem lookup_eraseKey_self {β : Type} (m : List (String × β)) (k : String) :
    (eraseKey m k).lookup k = none := by
  rw [List.lookup_eq_none_iff]
  intro p hp
  have h2 := (List.mem_filter.mp hp).2
  simp only [bne_iff_ne, ne_eq] at h2 ⊢
  exact fun h => h2 h.symm

theorem lookup_eraseKey_ne {β : Type} (m : List (String × β)) (k k' : String)
    (h : k' ≠ k) : (eraseKey m k).lookup k' = m.lookup k' := by
  induction m with
  | nil => rfl
  | cons p t ih =>
    rcases p with ⟨a, b⟩
    by_cases hak : a = k
    · subst hak
      have h2 : (k' == a) = false := by simp [h]
      rw [eraseKey, List.filter_cons, if_neg (by simp)]
      rw [List.lookup_cons, h2]
      exact ih
    · rw [eraseKey, List.filter_cons, if_pos (by simp [hak])]
      rw [List.lookup_cons, List.lookup_cons]
      cases hx : (k' == a) with
      | true => rfl
      | false => exact ih

theorem lookup_setKey_self {β : Type} (m : List (String × β)) (k : String) (v : β) :
    (setKey m k v).lookup k = some v := by
  simp [setKey, List.lookup_cons]

theorem lookup_setKey_ne {β : Type} (m : List (String × β)) (k k' : String) (v : β)
    (h : k' ≠ k) : (setKey m k v).lookup k' = m.lookup k' := by
  have h2 : (k' == k) = false := by simp [h]
  simp only [setKey, List.lookup_cons, h2]
  exact lookup_eraseKey_ne m k k' h

theorem countP_eraseKey_eq_zero {β : Type} (m : List (String × β)) (k : String) :
    (eraseKey m k).countP (fun p => p.1 == k) = 0 := by
  rw [List.countP_eq_zero]
  intro p hp
  have h2 := (List.mem_filter.mp hp).2
  simp only [bne_iff_ne, ne_eq] at h2
  simp [h2]

/-! Daily-ledger lemmas. -/

theorem logGetDay_setDay_self (log : DailyLog) (d : String) (m : DayLog) :
    logGetDay (logSetDay log d m) d = m := by
  simp [logGetDay, logSetDay, lookup_setKey_self]

theorem logGetDay_setDay_ne (log : DailyLog) (d d' : String) (m : DayLog)
    (h : d' ≠ d) : logGetDay (logSetDay log d m) d' = logGetDay log d' := by
  simp [logGetDay, logSetDay, lookup_setKey_ne _ _ _ _ h]

theorem logLookup_record_self (log : DailyLog) (d e : String) (v : LogEntry) :
    logLookup (logRecord log d e v) d e = some v := by
  rw [logLookup, logRecord, logGetDay_setDay_self]
  exact lookup_setKey_self _ _ _

theorem countP_day_record (log : DailyLog) (d e : String) (v : LogEntry) :
    (logGetDay (logRecord log d e v) d).countP (fun p => p.1 == e) = 1 := by
  rw [logRecord, logGetDay_setDay_self, setKey]
  rw [List.countP_cons_of_pos]
  · rw [countP_eraseKey_eq_zero]
  · simp

theorem clearEntry_of_none (log : DailyLog) (d e : String)
    (h : logLookup log d e = none) : clearEntry log d e = log := by
  simp [clearEntry, h]

theorem logLookup_clearEntry (log : DailyLog) (d e d' e' : String) :
    logLookup (clearEntry log d e) d' e' =
      if d' = d ∧ e' = e then none else logLookup log d' e' := by
  unfold clearEntry
  by_cases hs : (logLookup log d e).isSome
  · rw [if_pos hs]
    by_cases hd : d' = d
    · subst hd
      rw [logLookup, logGetDay_setDay_self]
      by_cases he : e' = e
      · subst he
        simp [lookup_eraseKey_self]
      · rw [lookup_eraseKey_ne _ _ _ he]
        simp [he]
        rfl
    · rw [logLookup, logGetDay_setDay_ne _ _ _ _ hd]
      simp [hd]
      rfl
  · rw [if_neg hs]
    rw [Option.not_isSome_iff_eq_none] at hs
    by_cases hde : d' = d ∧ e' = e
    · rcases hde with ⟨h1, h2⟩
      subst h1; subst h2
      simp [hs]
    · simp [hde]

theorem clearEntry_idem (log : DailyLog) (d e : String) :
    clearEntry (clearEntry log d e) d e = clearEntry log d e := by
  apply clearEntry_of_none
  rw [logLookup_clearEntry]
  simp

/-! Parsing lemmas. -/

theorem not_space_of_alnum (c : Char) (h : isAlnumChar c = true) :
    isSpaceChar c = false := by
  by_contra hc
  rw [Bool.not_eq_false] at hc
  simp only [isSpaceChar, Bool.or_eq_true, decide_eq_true_eq] at hc
  rcases hc with ((((h1 | h1) | h1) | h1) | h1) | h1 <;> subst h1 <;>
    exact absurd h (by decide)

theorem takeWhile_notSpace_eq (cs : List Char)
    (h : (cs.dropWhile isAlnumChar).takeWhile isSpaceChar ≠ []) :
    cs.takeWhile (fun c => !isSpaceChar c) = cs.takeWhile isAlnumChar := by
  induction cs with
  | nil => rfl
  | cons c t ih =>
    cases ha : isAlnumChar c with
    | true =>
      have hs := not_space_of_alnum c ha
      rw [List.dropWhile_cons, if_pos ha] at h
      simp only [List.takeWhile_cons, ha, hs, Bool.not_false, if_true]
      rw [ih h]
    | false =>
      rw [List.dropWhile_cons, if_neg (by simp [ha])] at h
      rw [List.takeWhile_cons] at h
      by_cases hsc : isSpaceChar c = true
      · rw [List.takeWhile_cons, List.takeWhile_cons]
        rw [if_neg (by simp [hsc]), if_neg (by simp [ha])]
      · simp [hsc] at h

theorem firstToken_eq_of_parse (s tok w : String)
    (hp : parseUpdate s = some (tok, w)) : firstToken s = tok := by
  simp only [parseUpdate] at hp
  split at hp
  · exact absurd hp (by simp)
  · rename_i hws
    split at hp
    · exact absurd hp (by simp)
    · rename_i hws2
      have htok : firstToken s = String.mk (s.data.takeWhile isAlnumChar) := by
        rw [firstToken, takeWhile_notSpace_eq _ hws2]
      split at hp
      · split at hp
        · rw [htok]
          exact congrArg Prod.fst (Option.some.inj hp)
        · exact absurd hp (by simp)
      · rw [htok]
        exact congrArg Prod.fst (Option.some.inj hp)

theorem parseUpdate_eq_none_of_no_space (s : String)
    (h : ∀ c ∈ s.data, isSpaceChar c = false) : parseUpdate s = none := by
  have hws : (s.data.dropWhile isAlnumChar).takeWhile isSpaceChar = [] := by
    cases hr : s.data.dropWhile isAlnumChar with
    | nil => rfl
    | cons c t =>
      have hc : c ∈ s.data := by
        have hm : c ∈ s.data.dropWhile isAlnumChar := by
          rw [hr]; exact List.mem_cons_self c t
        exact (List.dropWhile_sublist _).subset hm
      rw [List.takeWhile_cons, if_neg (by simp [h c hc])]
  simp only [parseUpdate, hws]
  split
  · rfl
  · rfl

/-! Message-handler shape lemmas. -/

theorem handle_message_of_parse_none (roster : Roster) (log : DailyLog)
    (today text : String) (h : parseUpdate (pyStrip text) = none) :
    handle_message roster log today text = .silent log := by
  simp [handle_message, h]

theorem handle_message_of_unregistered (roster : Roster) (log : DailyLog)
    (today text tok w : String)
    (hp : parseUpdate (pyStrip text) = some (tok, w))
    (hr : roster.lookup (pyUpper tok) = none) :
    handle_message roster log today text = .silent log := by
  simp [handle_message, hp, hr]

theorem handle_message_of_duplicate (roster : Roster) (log : DailyLog)
    (today text tok w : String) (info : StaffInfo)
    (hp : parseUpdate (pyStrip text) = some (tok, w))
    (hr : roster.lookup (pyUpper tok) = some info)
    (h1 : (logLookup log today (pyUpper tok)).isSome = true) :
    handle_message roster log today text =
      ⟨log, some .alreadySubmitted, false, false, false, false⟩ := by
  simp [handle_message, hp, hr, h1]

theorem handle_message_of_fresh (roster : Roster) (log : DailyLog)
    (today text tok w : String) (info : StaffInfo)
    (hp : parseUpdate (pyStrip text) = some (tok, w))
    (hr : roster.lookup (pyUpper tok) = some info)
    (h0 : logLookup log today (pyUpper tok) = none) :
    handle_message roster log today text =
      ⟨logRecord log today (pyUpper tok) .mark, some .confirm,
        true, true, true, true⟩ := by
  simp [handle_message, hp, hr, h0]

/-! Leave-count lemma. -/

theorem count_monthly_leaves_record (log : LeaveLog) (emp : String) (ld : Date)
    (r : LeaveRec)
    (habs : ∀ p ∈ log, p.1 = ld → p.2.lookup emp = none) :
    count_monthly_leaves (leaveRecord log ld emp r) emp ld =
      count_monthly_leaves log emp ld + 1 := by
  unfold count_monthly_leaves leaveRecord
  rw [List.countP_cons_of_pos]
  · congr 1
    unfold leaveEraseDay
    rw [List.countP_filter]
    apply List.countP_congr
    intro p hp
    constructor
    · intro hcp
      rw [Bool.and_eq_true] at hcp
      exact hcp.1
    · intro hcq
      rw [Bool.and_eq_true]
      refine ⟨hcq, ?_⟩
      simp only [decide_eq_true_eq]
      intro hpl
      rw [Bool.and_eq_true, Bool.and_eq_true] at hcq
      have h3 := hcq.2
      rw [habs p hp hpl] at h3
      simp at h3
  · simp [lookup_setKey_self]

/-! Claim theorems. -/

/-- C1: after a successful submission for (date D, employee E), any second
submission message for the same (D, E) is rejected with the duplicate reply
and causes no Excel or Sheets write, no owner or HR message, and no ledger
mutation; the ledger still holds exactly the first record for (D, E), with
exactly one entry for that (date, employee) key. -/
theorem duplicate_submission_rejected
    (roster : Roster) (log0 : DailyLog) (today t1 t2 tok1 w1 tok2 w2 e : String)
    (info : StaffInfo)
    (hp1 : parseUpdate (pyStrip t1) = some (tok1, w1))
    (he1 : pyUpper tok1 = e)
    (hp2 : parseUpdate (pyStrip t2) = some (tok2, w2))
    (he2 : pyUpper tok2 = e)
    (hr : roster.lookup e = some info)
    (h0 : logLookup log0 today e = none) :
    (handle_message roster log0 today t1).reply = some Reply.confirm ∧
    (handle_message roster (handle_message roster log0 today t1).log today t2) =
      ⟨(handle_message roster log0 today t1).log, some Reply.alreadySubmitted,
        false, false, false, false⟩ ∧
    logLookup (handle_message roster log0 today t1).log today e =
      some LogEntry.mark ∧
    ((logGetDay (handle_message roster log0 today t1).log today).countP
      (fun p => p.1 == e)) = 1 := by
  subst he1
  have h1 := handle_message_of_fresh roster log0 today t1 tok1 w1 info hp1 hr h0
  rw [h1]
  refine ⟨rfl, ?_, ?_, ?_⟩
  · exact handle_message_of_duplicate roster _ today t2 tok2 w2 info hp2
      (by rw [he2]; exact hr)
      (by rw [he2, logLookup_record_self]; rfl)
  · exact logLookup_record_self log0 today (pyUpper tok1) .mark
  · exact countP_day_record log0 today (pyUpper tok1) .mark

/-- C1 witness: a concrete successful submission for DEV01 followed by a
second message for the same employee and day. -/
theorem duplicate_submission_rejected_witness :
    (handle_message demoRoster [] "2026-03-05" "DEV01 Fixed the login page").reply =
      some Reply.confirm ∧
    (handle_message demoRoster
        (handle_message demoRoster [] "2026-03-05" "DEV01 Fixed the login page").log
        "2026-03-05" "dev01 second try") =
      ⟨(handle_message demoRoster [] "2026-03-05" "DEV01 Fixed the login page").log,
        some Reply.alreadySubmitted, false, false, false, false⟩ ∧
    logLookup (handle_message demoRoster [] "2026-03-05"
        "DEV01 Fixed the login page").log "2026-03-05" "DEV01" =
      some LogEntry.mark ∧
    ((logGetDay (handle_message demoRoster [] "2026-03-05"
        "DEV01 Fixed the login page").log "2026-03-05").countP
      (fun p => p.1 == "DEV01")) = 1 :=
  duplicate_submission_rejected demoRoster [] "2026-03-05"
    "DEV01 Fixed the login page" "dev01 second try"
    "DEV01" "Fixed the login page" "dev01" "second try" "DEV01"
    ⟨"Sunny", "DEVELOPER"⟩
    (by decide) (by decide) (by decide) (by decide) (by decide) (by decide)

/-- C2: a valid submission whose local arrival hour is before 01:00 is
attributed to the previous calendar date and flagged late regardless of the
configured deadline. -/
theorem grace_window_prev_day_late (deadline : Option (Nat × Nat))
    (today : Date) (h mi : Nat) (hh : h < 1) :
    classifySubmission deadline today h mi = (prevDate today, true) := by
  simp [classifySubmission, hh]

/-- C2 witness: an arrival at 00:30 under deadline 11:00 on 1 March 2026 is
dated 28 February 2026 and late. -/
theorem grace_window_prev_day_late_witness :
    (0 : Nat) < 1 ∧
    classifySubmission (some (11, 0)) ⟨2026, 3, 1⟩ 0 30 =
      (⟨2026, 2, 28⟩, true) := by
  refine ⟨by decide, ?_⟩
  rw [grace_window_prev_day_late (some (11, 0)) ⟨2026, 3, 1⟩ 0 30 (by decide)]
  decide

/-- C3: once the per-(date, employee) allow-usage counter has reached its
cap of 1, a further re-submission request is denied outright with a
suspicious-activity alert and never produces the normal Approve/Reject
prompt, leaving the counter state unchanged; a first request produces the
prompt and no alert; and after any request the counter is at least 1, so
every request after the first is denied. -/
theorem resubmission_request_cap (cnt : AllowCounter) (d e : String) :
    (allowCap ≤ counterGet cnt d e →
      (allowRequest cnt d e).1.prompt = false ∧
      (allowRequest cnt d e).1.alert = true ∧
      (allowRequest cnt d e).2 = cnt) ∧
    (counterGet cnt d e = 0 →
      (allowRequest cnt d e).1.prompt = true ∧
      (allowRequest cnt d e).1.alert = false) ∧
    1 ≤ counterGet (allowRequest cnt d e).2 d e := by
  unfold allowRequest
  by_cases hc : allowCap ≤ counterGet cnt d e
  · rw [if_pos hc]
    refine ⟨fun _ => ⟨rfl, rfl, rfl⟩, fun h0 => ?_, ?_⟩
    · rw [h0] at hc
      exact absurd hc (by decide)
    · exact hc
  · rw [if_neg hc]
    refine ⟨fun h => absurd h hc, fun _ => ⟨rfl, rfl⟩, ?_⟩
    simp [counterGet]

/-- C3 witness: with the counter already at 1 for (2026-03-05, DEV01), a
request is denied with an alert and the state is unchanged. -/
theorem resubmission_request_cap_witness :
    (allowRequest [(("2026-03-05", "DEV01"), 1)] "2026-03-05" "DEV01").1.prompt =
      false ∧
    (allowRequest [(("2026-03-05", "DEV01"), 1)] "2026-03-05" "DEV01").1.alert =
      true ∧
    (allowRequest [(("2026-03-05", "DEV01"), 1)] "2026-03-05" "DEV01").2 =
      [(("2026-03-05", "DEV01"), 1)] :=
  (resubmission_request_cap [(("2026-03-05", "DEV01"), 1)] "2026-03-05" "DEV01").1
    (by decide)

/-- C4: approving a leave for an employee dated in month M makes the monthly
count the number of that employee's approved leaves in M inclusive of the
one being approved; the deduction equals (count - 3) * 500 exactly when the
count exceeds 3 and is absent otherwise, so it is 500 at count 4 and 1000
at count 5 and absent at counts 1 through 3. -/
theorem leave_deduction_rule (log : LeaveLog) (emp : String) (ld : Date)
    (reason approver : String)
    (habs : ∀ p ∈ log, p.1 = ld → p.2.lookup emp = none) :
    (leave_approve log emp ld reason approver).count =
      count_monthly_leaves log emp ld + 1 ∧
    (leave_approve log emp ld reason approver).deduction =
      (if 3 < (leave_approve log emp ld reason approver).count then
        some (((leave_approve log emp ld reason approver).count - 3) * 500)
      else none) ∧
    ((leave_approve log emp ld reason approver).count ≤ 3 →
      (leave_approve log emp ld reason approver).deduction = none) ∧
    ((leave_approve log emp ld reason approver).count = 4 →
      (leave_approve log emp ld reason approver).deduction = some 500) ∧
    ((leave_approve log emp ld reason approver).count = 5 →
      (leave_approve log emp ld reason approver).deduction = some 1000) := by
  have hcount := count_monthly_leaves_record log emp ld ⟨approver, reason⟩ habs
  refine ⟨hcount, rfl, ?_, ?_, ?_⟩
  · intro hle
    exact if_neg (Nat.not_lt.mpr hle)
  · intro h4
    show (if 3 < (leave_approve log emp ld reason approver).count then
        some (((leave_approve log emp ld reason approver).count - 3) * 500)
      else none) = some 500
    rw [h4]
    decide
  · intro h5
    show (if 3 < (leave_approve log emp ld reason approver).count then
        some (((leave_approve log emp ld reason approver).count - 3) * 500)
      else none) = some 1000
    rw [h5]
    decide

/-- C4 witness: with three approved leaves of DEV01 already in March 2026,
approving a fourth March date yields count 4 and deduction 500. -/
theorem leave_deduction_rule_witness :
    ((leave_approve demoLeaveLog "DEV01" ⟨2026, 3, 9⟩ "d" "Boss").count =
        count_monthly_leaves demoLeaveLog "DEV01" ⟨2026, 3, 9⟩ + 1 ∧
      (leave_approve demoLeaveLog "DEV01" ⟨2026, 3, 9⟩ "d" "Boss").deduction =
        (if 3 < (leave_approve demoLeaveLog "DEV01" ⟨2026, 3, 9⟩ "d" "Boss").count
          then some (((leave_approve demoLeaveLog "DEV01" ⟨2026, 3, 9⟩ "d"
            "Boss").count - 3) * 500)
        else none) ∧
      ((leave_approve demoLeaveLog "DEV01" ⟨2026, 3, 9⟩ "d" "Boss").count ≤ 3 →
        (leave_approve demoLeaveLog "DEV01" ⟨2026, 3, 9⟩ "d" "Boss").deduction =
          none) ∧
      ((leave_approve demoLeaveLog "DEV01" ⟨2026, 3, 9⟩ "d" "Boss").count = 4 →
        (leave_approve demoLeaveLog "DEV01" ⟨2026, 3, 9⟩ "d" "Boss").deduction =
          some 500) ∧
      ((leave_approve demoLeaveLog "DEV01" ⟨2026, 3, 9⟩ "d" "Boss").count = 5 →
        (leave_approve demoLeaveLog "DEV01" ⟨2026, 3, 9⟩ "d" "Boss").deduction =
          some 1000)) ∧
    (leave_approve demoLeaveLog "DEV01" ⟨2026, 3, 9⟩ "d" "Boss").deduction =
      some 500 :=
  ⟨leave_deduction_rule demoLeaveLog "DEV01" ⟨2026, 3, 9⟩ "d" "Boss" (by decide),
   by decide⟩

/-- C5 counterexample: on a concrete successful submission, the ledger
record created by src/bot.py's handler is the bare boolean `True`, not a
dict, so it carries no submission timestamp, work text, or lateness
flag. -/
theorem submission_record_fields_cex :
    logLookup (handle_message demoRoster [] "2026-03-05"
        "DEV01 Fixed the login page").log "2026-03-05" "DEV01" =
      some LogEntry.mark ∧
    (logLookup (handle_message demoRoster [] "2026-03-05"
        "DEV01 Fixed the login page").log "2026-03-05" "DEV01").map
      LogEntry.isDict = some false ∧
    entryTime LogEntry.mark = none := by
  decide

/-- C5 amended: every ledger record created by a successful submission in
src/bot.py is the bare boolean marker `True`; it is not a dict and stores
no timestamp, work text, or lateness flag, and the lateness report treats
it as on time with no recoverable time. -/
theorem submission_record_bare_marker (roster : Roster) (log : DailyLog)
    (today text tok w : String) (info : StaffInfo)
    (hp : parseUpdate (pyStrip text) = some (tok, w))
    (hr : roster.lookup (pyUpper tok) = some info)
    (h0 : logLookup log today (pyUpper tok) = none) :
    logLookup (handle_message roster log today text).log today (pyUpper tok) =
      some LogEntry.mark ∧
    LogEntry.isDict LogEntry.mark = false ∧
    entryTime LogEntry.mark = none ∧
    (∀ dh dm, lateListed dh dm LogEntry.mark = false) := by
  rw [handle_message_of_fresh roster log today text tok w info hp hr h0]
  exact ⟨logLookup_record_self log today (pyUpper tok) .mark, rfl, rfl,
    fun _ _ => rfl⟩

/-- C5 witness: the amended statement at a concrete submission. -/
theorem submission_record_bare_marker_witness :
    logLookup (handle_message demoRoster [] "2026-03-05"
        "MKT01 Ran the campaign").log "2026-03-05" (pyUpper "MKT01") =
      some LogEntry.mark ∧
    LogEntry.isDict LogEntry.mark = false ∧
    entryTime LogEntry.mark = none ∧
    (∀ dh dm, lateListed dh dm LogEntry.mark = false) :=
  submission_record_bare_marker demoRoster [] "2026-03-05"
    "MKT01 Ran the campaign" "MKT01" "Ran the campaign"
    ⟨"Bipul", "MARKETING"⟩ (by decide) (by decide) (by decide)

/-- C6: on the normal path a submission is late exactly when its arrival
time strictly exceeds the configured deadline, compared hour first then
minute; the late report of commands_admin uses the same test; with deadline
11:00, arrival 10:59 and 11:00 are not late while 11:01 is late. -/
theorem normal_path_late_iff_strictly_after (dh dm h mi : Nat) :
    (is_on_time (some (dh, dm)) h mi = false ↔
      (dh < h ∨ (h = dh ∧ dm < mi))) ∧
    lateCheck dh dm h mi = !is_on_time (some (dh, dm)) h mi ∧
    is_on_time (some (11, 0)) 10 59 = true ∧
    is_on_time (some (11, 0)) 11 0 = true ∧
    is_on_time (some (11, 0)) 11 1 = false := by
  refine ⟨?_, ?_, by decide, by decide, by decide⟩
  · simp only [is_on_time, Bool.or_eq_false_iff, Bool.and_eq_false_iff,
      decide_eq_false_iff_not, beq_eq_false_iff_ne, ne_eq, Nat.not_lt, Nat.not_le]
    omega
  · rw [Bool.eq_iff_iff]
    simp only [lateCheck, is_on_time, Bool.not_eq_eq_eq_not, Bool.not_true,
      Bool.or_eq_false_iff, Bool.and_eq_false_iff, Bool.or_eq_true,
      Bool.and_eq_true, decide_eq_true_eq, decide_eq_false_iff_not,
      beq_iff_eq, beq_eq_false_iff_ne, ne_eq, Nat.not_lt, Nat.not_le]
    omega

/-- C7: a message whose first whitespace-delimited token, upper-cased, is
not a registered employee id is silently ignored: no ledger entry, no sink
write, no notice to the chat or the supervisors. -/
theorem unregistered_id_ignored (roster : Roster) (log : DailyLog)
    (today text : String)
    (h : roster.lookup (pyUpper (firstToken (pyStrip text))) = none) :
    handle_message roster log today text = MsgResult.silent log := by
  cases hp : parseUpdate (pyStrip text) with
  | none => exact handle_message_of_parse_none roster log today text hp
  | some pr =>
    rcases pr with ⟨tok, w⟩
    have hft := firstToken_eq_of_parse (pyStrip text) tok w hp
    exact handle_message_of_unregistered roster log today text tok w hp
      (by rw [← hft]; exact h)

/-- C7 witness: a chatty message whose first token is no employee id
leaves the state untouched. -/
theorem unregistered_id_ignored_witness :
    handle_message demoRoster [] "2026-03-05" "Hello everyone good morning" =
      MsgResult.silent [] :=
  unregistered_id_ignored demoRoster [] "2026-03-05"
    "Hello everyone good morning" (by decide)

/-- C8: a roster add stores the entry under the upper-cased id with the
department upper-cased and the display name exactly as given; removing an
id that is not in the roster reports failure and leaves the store
unchanged. -/
theorem roster_add_remove_roundtrip (records : Roster)
    (id name dept rid : String) :
    (save_staff_record records id name dept).lookup (pyUpper id) =
      some ⟨name, pyUpper dept⟩ ∧
    (records.lookup (pyUpper rid) = none →
      remove_staff_record records rid = (false, records)) := by
  refine ⟨lookup_setKey_self records (pyUpper id) ⟨name, pyUpper dept⟩, ?_⟩
  intro h
  simp [remove_staff_record, h]

/-- C8 witness: adding fin01/Sahil/Finance and removing the absent HR09. -/
theorem roster_add_remove_roundtrip_witness :
    ((save_staff_record demoRoster "fin01" "Sahil" "Finance").lookup
        (pyUpper "fin01") = some ⟨"Sahil", pyUpper "Finance"⟩) ∧
    remove_staff_record demoRoster "HR09" = (false, demoRoster) :=
  ⟨(roster_add_remove_roundtrip demoRoster "fin01" "Sahil" "Finance" "HR09").1,
   (roster_add_remove_roundtrip demoRoster "fin01" "Sahil" "Finance" "HR09").2
     (by decide)⟩

/-- C9: clearing a ledger entry that does not exist is a no-op that leaves
the entire ledger unchanged; when the entry exists, clearing removes
exactly that entry and nothing else; and clearing is idempotent. -/
theorem ledger_clear_idempotent_noop (log : DailyLog) (d e : String) :
    (logLookup log d e = none → clearEntry log d e = log) ∧
    (∀ d' e', logLookup (clearEntry log d e) d' e' =
      if d' = d ∧ e' = e then none else logLookup log d' e') ∧
    clearEntry (clearEntry log d e) d e = clearEntry log d e :=
  ⟨clearEntry_of_none log d e,
   fun d' e' => logLookup_clearEntry log d e d' e',
   clearEntry_idem log d e⟩

/-- C9 witness: clearing the absent MKT01 entry is a no-op and clearing the
present DEV01 entry twice equals clearing it once. -/
theorem ledger_clear_idempotent_noop_witness :
    clearEntry [("2026-03-05", [("DEV01", LogEntry.mark)])] "2026-03-05"
        "MKT01" = [("2026-03-05", [("DEV01", LogEntry.mark)])] ∧
    clearEntry (clearEntry [("2026-03-05", [("DEV01", LogEntry.mark)])]
        "2026-03-05" "DEV01") "2026-03-05" "DEV01" =
      clearEntry [("2026-03-05", [("DEV01", LogEntry.mark)])] "2026-03-05"
        "DEV01" :=
  ⟨(ledger_clear_idempotent_noop [("2026-03-05", [("DEV01", LogEntry.mark)])]
      "2026-03-05" "MKT01").1 (by decide),
   (ledger_clear_idempotent_noop [("2026-03-05", [("DEV01", LogEntry.mark)])]
      "2026-03-05" "DEV01").2.2⟩

/-- C10: a message whose stripped text contains no whitespace at all - a
single token, including a bare registered employee id - fails the
UPDATE_PATTERN match, so the handler returns with no ledger entry, no sink
write, and no message sent. -/
theorem single_token_message_ignored (roster : Roster) (log : DailyLog)
    (today text : String)
    (h : ∀ c ∈ (pyStrip text).data, isSpaceChar c = false) :
    handle_message roster log today text = MsgResult.silent log :=
  handle_message_of_parse_none roster log today text
    (parseUpdate_eq_none_of_no_space (pyStrip text) h)

/-- C10 witness: the bare registered id DEV01 with no work description is
ignored. -/
theorem single_token_message_ignored_witness :
    handle_message demoRoster [] "2026-03-05" "DEV01" = MsgResult.silent [] :=
  single_token_message_ignored demoRoster [] "2026-03-05" "DEV01" (by decide)

end SISWIT
